import Mathlib

/-!
A shallow embedding of the daily "0x0" football-alert bot
(`src/analyzer.py`, class `Analyzer`, and `src/main.py`).

Conventions of the embedding:
* JSON dictionary access `d['k']` that can raise `KeyError`, and Python
  f-string formatting with `:.1f` applied to a non-number (which raises
  `ValueError`), are modelled in the `Except Unit` monad; `.error ()` is an
  uncaught Python exception.  `d.get('k')` is modelled with `Option`.
* Python floats are modelled as `Rat`; the arithmetic performed by the
  deriver is exact on the values in range.
* Network I/O is modelled by oracle functions stored in `Env` and, for the
  gateway `_get_api_data`, by the `HttpOutcome` type describing one HTTP
  exchange.
* The observable effects of a run (log lines, Telegram HTTP calls, last-match
  API lookups, statistics API lookups, and which fixtures pass the quota
  gate) are recorded in `RunState`; log messages keep a fixed prefix of the
  Python text, without the interpolated data.
* `str.strip`, `str.split`, `str.isdigit` and `int` are modelled by
  structurally recursive functions over the character list.  The digit
  classes `int()` distinguishes are kept: decimal digits carry a value
  (modelled on ASCII `0`-`9` and Arabic-Indic U+0660-U+0669), while
  digit-but-not-decimal characters (superscripts `¹²³`) pass `isdigit` but
  make `int()` raise; whitespace stripping is on the ASCII fragment.
-/

inductive LogLevel where
  | info
  | warning
  | error
deriving DecidableEq, Repr

structure LogEntry where
  level : LogLevel
  msg : String
deriving DecidableEq, Repr

/-- A team object as it appears under `fixture["teams"]["home"/"away"]`:
`{"id": ..., "name": ...}`. -/
structure TeamRef where
  id : Nat
  name : String
deriving DecidableEq, Repr

structure TeamsPair where
  home : TeamRef
  away : TeamRef
deriving DecidableEq, Repr

/-- The `fixture["league"]` object.  `season` is `none` when the key is
absent (the Python code reads `fixture['league']['season']` inside
`try/except` and skips the fixture on failure). -/
structure LeagueRef where
  id : Nat
  name : String
  season : Option Nat
deriving DecidableEq, Repr

/-- The `fixture["fixture"]` object.  `status_short` models the chain
`fixture['fixture']['status']['short']`; `none` means some key of that chain
is missing, in which case the unguarded access raises `KeyError`. -/
structure FixtureCore where
  status_short : Option String
  timestamp : Int
  date : String
deriving DecidableEq, Repr

structure Fixture where
  fixture : FixtureCore
  league : LeagueRef
  teams : TeamsPair
deriving DecidableEq, Repr

/-- `last_match.get('goals', {})`: each side's goal count may be absent. -/
structure Goals where
  home : Option Int
  away : Option Int
deriving DecidableEq, Repr

/-- The record returned by `_get_last_fixture`: one finished fixture. -/
structure LastMatch where
  goals : Goals
  teams : TeamsPair
  fixture_date : String
deriving DecidableEq, Repr

/-- The counters read out of a `teams/statistics` payload.  Each field models
the nested access `team_stats.get(...).get(...).get("total", 0)`, already
defaulted to 0 when a key is missing. -/
structure TeamStats where
  played : Nat
  draws : Nat
  clean_sheet : Nat
  failed_to_score : Nat
deriving DecidableEq, Repr

/-- The second component of `_calculate_real_stats`'s result: Python returns
either a float or one of the sentinel strings `"N/A"` / `"0/0"`. -/
inductive TrendValue where
  | num (q : Rat)
  | sentinel (s : String)
deriving DecidableEq, Repr

/-- A decoded JSON body from the data API: an optional `errors` marker
(modelled as a list, empty when absent or falsy) and an optional `response`
array. -/
structure JsonBody (α : Type) where
  errors : List String
  response : Option (List α)
deriving DecidableEq

/-- One HTTP exchange as seen by `_get_api_data`:
either the request raised in transport, or a reply arrived with a status
code and a body (`none` when `response.json()` fails to decode). -/
inductive HttpOutcome (α : Type) where
  | transportFail
  | reply (status : Nat) (body : Option (JsonBody α))
deriving DecidableEq

/-- `Analyzer._get_api_data` (analyzer.py lines 38-50): `raise_for_status`
raises on 4xx/5xx; any exception is caught broadly and yields `None`; a
truthy `errors` field yields `None` after a warning; otherwise
`data.get("response", [])` is returned.  The second component records the
log lines produced. -/
def get_api_data {α : Type} : HttpOutcome α → Option (List α) × List LogEntry
  | HttpOutcome.transportFail => (none, [⟨LogLevel.error, "Erro API"⟩])
  | HttpOutcome.reply status body =>
    if 400 ≤ status ∧ status < 600 then (none, [⟨LogLevel.error, "Erro API"⟩])
    else
      match body with
      | none => (none, [⟨LogLevel.error, "Erro API"⟩])
      | some data =>
        if data.errors ≠ [] then (none, [⟨LogLevel.warning, "API Info"⟩])
        else (some (data.response.getD []), [])

/-- `Analyzer._get_last_fixture` (lines 52-56), given the gateway outcome of
its one query: `fixtures[0] if fixtures else None`. -/
def get_last_fixture {α : Type} (o : HttpOutcome α) : Option α :=
  match (get_api_data o).1 with
  | some (x :: _) => some x
  | _ => none

/-- `Analyzer._calculate_real_stats` (lines 62-73).  `none` models a falsy
`team_stats` argument. -/
def calculate_real_stats : Option TeamStats → Rat × TrendValue
  | none => (0, TrendValue.sentinel "N/A")
  | some team_stats =>
    let played := team_stats.played
    let draws := team_stats.draws
    let clean_sheets := team_stats.clean_sheet
    let failed_to_score := team_stats.failed_to_score
    if played = 0 then (0, TrendValue.sentinel "0/0")
    else
      let draw_rate : Rat := ((draws : Rat) / (played : Rat)) * 100
      let trend_factor : Rat :=
        (((clean_sheets : Rat) + (failed_to_score : Rat)) / 2) / (played : Rat) * 100
      (draw_rate, TrendValue.num trend_factor)

/-- The `0x0` test in `run_daily_analysis` (line 148):
`goals.get('home') == 0 and goals.get('away') == 0`. -/
def is_zero_zero (last_match : LastMatch) : Bool :=
  decide (last_match.goals.home = some 0) && decide (last_match.goals.away = some 0)

/-- Python truthiness of an optional string (unset or empty is falsy). -/
def pyTruthy : Option String → Bool
  | none => false
  | some s => !s.toList.isEmpty

/-- The structured content of one alert message (the data interpolated into
the f-string at lines 158-168); the raw timestamp and date stand for their
rendered forms. -/
structure AlertMsg where
  league_name : String
  home_name : String
  away_name : String
  kickoff_ts : Int
  team_name : String
  side : String
  last_op : String
  last_date : String
  match_season : Nat
  draw_rate : Rat
  defensive_trend : Rat
deriving DecidableEq, Repr

/-- `Analyzer._send_telegram_message` (lines 75-83): with the token or chat
id unset (falsy) it logs a warning and returns without any HTTP call;
otherwise it POSTs the message once.  First component: the HTTP calls made
to the Telegram sink. -/
def send_telegram_message (telegram_token telegram_chat_id : Option String)
    (message : AlertMsg) : List AlertMsg × List LogEntry :=
  if pyTruthy telegram_token = false ∨ pyTruthy telegram_chat_id = false then
    ([], [⟨LogLevel.warning, "Telegram nao configurado."⟩])
  else
    ([message], [])

/-- The class constant `Analyzer.VIP_LEAGUES` (lines 12-15). -/
def VIP_LEAGUES : List Nat :=
  [39, 140, 61, 78, 135, 94, 88, 71, 179, 144,
   141, 40, 262, 301, 235, 253, 556, 128, 569, 307]

/-- Python `str.split(",")` on the character list (keeps empty tokens, as
Python does). -/
def splitCommasAux : List Char → List Char → List (List Char)
  | [], acc => [acc.reverse]
  | c :: rest, acc =>
    if c = ',' then acc.reverse :: splitCommasAux rest []
    else splitCommasAux rest (c :: acc)

def pySplit (s : String) : List String :=
  (splitCommasAux s.toList []).map fun cs => String.mk cs

/-- Python `str.strip()` on the ASCII fragment. -/
def pyStrip (s : String) : String :=
  String.mk (((s.toList.dropWhile Char.isWhitespace).reverse.dropWhile
    Char.isWhitespace).reverse)

/-- The decimal value of a character when it is a Unicode decimal digit
(category Nd) — exactly the characters Python's `int()` accepts.  Modelled
on a representative fragment of the Nd tables: ASCII `0`-`9` and the
Arabic-Indic digits U+0660-U+0669. -/
def pyDecimalValue (c : Char) : Option Nat :=
  if 48 ≤ c.toNat ∧ c.toNat ≤ 57 then some (c.toNat - 48)
  else if 1632 ≤ c.toNat ∧ c.toNat ≤ 1641 then some (c.toNat - 1632)
  else none

/-- Python's per-character `str.isdigit` test: true for decimal digits and
also for digit characters that are *not* decimal (which `int()` rejects),
represented here by the superscript digits `¹` U+00B9, `²` U+00B2 and `³`
U+00B3. -/
def pyIsDigitChar (c : Char) : Bool :=
  (pyDecimalValue c).isSome || c.toNat = 178 || c.toNat = 179 || c.toNat = 185

/-- Python `str.isdigit()`: nonempty and every character a digit character
(decimal or not). -/
def pyIsDigit (s : String) : Bool :=
  !s.toList.isEmpty && s.toList.all pyIsDigitChar

/-- Python `int` on an unsigned token: `some` the value when the token is
nonempty and all characters are decimal digits, `none` for the
`ValueError` it otherwise raises — in particular on `isdigit`-true tokens
such as `"²"` whose characters are digits but not decimal. -/
def pyIntOpt (s : String) : Option Nat :=
  if (!s.toList.isEmpty) && s.toList.all (fun c => (pyDecimalValue c).isSome) then
    some (s.toList.foldl (fun n c => n * 10 + (pyDecimalValue c).getD 0) 0)
  else none

/-- Evaluating `int` over the retained tokens: `none` as soon as any call
raises, which aborts the surrounding list comprehension. -/
def pyIntList : List String → Option (List Nat)
  | [] => some []
  | x :: xs =>
    match pyIntOpt x with
    | none => none
    | some n =>
      match pyIntList xs with
      | none => none
      | some ns => some (n :: ns)

/-- The list comprehension in `Analyzer.__init__` (line 31):
`[int(x.strip()) for x in leagues_env.split(",") if x.strip().isdigit()]`;
`none` models the comprehension raising `ValueError`. -/
def parseLeagueIds (leagues_env : String) : Option (List Nat) :=
  pyIntList (((pySplit leagues_env).filter fun x => pyIsDigit (pyStrip x)).map
    fun x => pyStrip x)

/-- `Analyzer.__init__` lines 28-36: the priority set as a function of the
`LEAGUE_IDS` environment string (`""` models an unset variable).
`sorted(list(set(parsed)))` is `insertionSort` of `dedup`; when the
comprehension raises (an `isdigit` token `int()` rejects, such as `"²"`),
the `except` at lines 33-34 falls back to the built-in default list. -/
def vip_leagues_of (leagues_env : String) : List Nat :=
  if leagues_env ≠ "" then
    match parseLeagueIds leagues_env with
    | some parsed => (parsed.dedup).insertionSort (· ≤ ·)
    | none => VIP_LEAGUES
  else VIP_LEAGUES

/-- The constant `MAX_GLOBAL_CHECKS` (line 102). -/
def MAX_GLOBAL_CHECKS : Nat := 50

/-- The oracles and configuration a run reads: the decoded result of the
global fixtures query (already passed through the gateway, `none` for a
failed call), the per-team last-fixture lookup, the team-statistics lookup
(arguments: team id, league id, season), the priority list, and the
Telegram credentials. -/
structure Env where
  fixturesToday : Option (List Fixture)
  lastFixture : Nat → Option LastMatch
  teamStatistics : Nat → Nat → Nat → Option TeamStats
  vip_leagues : List Nat
  telegram_token : Option String
  telegram_chat_id : Option String

/-- The observable effects and counters of `run_daily_analysis`.
`sent` records the HTTP calls made to the Telegram sink, `lookups` the team
ids passed to `_get_last_fixture`, `statsLookups` the argument triples of
`_get_team_statistics`, and `examined` the fixtures that pass the quota
gate (reaching the season lookup at line 122). -/
structure RunState where
  logs : List LogEntry
  sent : List AlertMsg
  lookups : List Nat
  statsLookups : List (Nat × Nat × Nat)
  examined : List Fixture
  matches_checked : Nat
  global_checks_counter : Nat
deriving DecidableEq, Repr

def initState : RunState :=
  { logs := [], sent := [], lookups := [], statsLookups := [], examined := [],
    matches_checked := 0, global_checks_counter := 0 }

/-- Whether the league of a fixture is detected as VIP (line 113). -/
def is_vip_for (env : Env) (fx : Fixture) : Bool :=
  decide (fx.league.id ∈ env.vip_leagues)

/-- The message content built at lines 155-168. -/
def vipAlertMsg (league_name : String) (match_season : Nat) (fx : Fixture)
    (team : TeamRef) (side : String) (last_match : LastMatch)
    (draw_rate defensive_trend : Rat) : AlertMsg :=
  { league_name := league_name
    home_name := fx.teams.home.name
    away_name := fx.teams.away.name
    kickoff_ts := fx.fixture.timestamp
    team_name := team.name
    side := side
    last_op :=
      if last_match.teams.home.id = team.id then last_match.teams.away.name
      else last_match.teams.home.name
    last_date := last_match.fixture_date
    match_season := match_season
    draw_rate := draw_rate
    defensive_trend := defensive_trend }

/-- The body of the inner `for team_obj, side in [(home,'Casa'),(away,'Fora')]`
loop (lines 137-174).  A sentinel trend value reaching the f-string's
`:.1f` conversion raises `ValueError` (uncaught), hence `.error ()`. -/
def processSide (env : Env) (is_vip : Bool) (league_id : Nat)
    (league_name : String) (match_season : Nat) (fx : Fixture) (team : TeamRef)
    (side : String) (st : RunState) : Except Unit RunState :=
  match env.lastFixture team.id with
  | none => Except.ok { st with lookups := st.lookups ++ [team.id] }
  | some last_match =>
    if is_zero_zero last_match then
      if is_vip then
        match calculate_real_stats (env.teamStatistics team.id league_id match_season) with
        | (_, TrendValue.sentinel _) => Except.error ()
        | (draw_rate, TrendValue.num defensive_trend) =>
          let msg := vipAlertMsg league_name match_season fx team side last_match
            draw_rate defensive_trend
          let send := send_telegram_message env.telegram_token env.telegram_chat_id msg
          Except.ok { st with
            lookups := st.lookups ++ [team.id]
            statsLookups := st.statsLookups ++ [(team.id, league_id, match_season)]
            sent := st.sent ++ send.1
            logs := st.logs ++ send.2 ++ [⟨LogLevel.info, "TELEGRAM ENVIADO"⟩] }
      else
        Except.ok { st with
          lookups := st.lookups ++ [team.id]
          logs := st.logs ++ [⟨LogLevel.warning, "0x0 DETECTADO (Fora da Lista VIP)"⟩] }
    else Except.ok { st with lookups := st.lookups ++ [team.id] }

/-- The progress log of lines 132-133 (`if matches_checked % 10 == 0`). -/
def progressLogged (st : RunState) : RunState :=
  if st.matches_checked % 10 = 0 then
    { st with logs := st.logs ++ [⟨LogLevel.info, "Analisando jogo"⟩] }
  else st

/-- `matches_checked += 1` (line 134). -/
def countChecked (st : RunState) : RunState :=
  { st with matches_checked := st.matches_checked + 1 }

/-- Lines 122-174: from the season lookup onward, for one fixture that
passed the status filter and the quota gate. -/
def processGated (env : Env) (fx : Fixture) (st : RunState) : Except Unit RunState :=
  match fx.league.season with
  | none => Except.ok st
  | some match_season =>
    match processSide env (is_vip_for env fx) fx.league.id fx.league.name
        match_season fx fx.teams.home "Casa" (countChecked (progressLogged st)) with
    | Except.error e => Except.error e
    | Except.ok st3 =>
      processSide env (is_vip_for env fx) fx.league.id fx.league.name
        match_season fx fx.teams.away "Fora" st3

/-- One iteration of the `for fixture in all_fixtures` loop (lines 104-174):
status filter, VIP detection, quota gate, then `processGated`. -/
def processFixture (env : Env) (fx : Fixture) (st : RunState) : Except Unit RunState :=
  match fx.fixture.status_short with
  | none => Except.error ()
  | some status =>
    if status = "NS" ∨ status = "TBD" then
      if is_vip_for env fx = false ∧ MAX_GLOBAL_CHECKS ≤ st.global_checks_counter then
        Except.ok st
      else if is_vip_for env fx then
        processGated env fx { st with examined := st.examined ++ [fx] }
      else
        processGated env fx { st with
          global_checks_counter := st.global_checks_counter + 1
          examined := st.examined ++ [fx] }
    else Except.ok st

def runLoop (env : Env) : List Fixture → RunState → Except Unit RunState
  | [], st => Except.ok st
  | fx :: rest, st =>
    match processFixture env fx st with
    | Except.error e => Except.error e
    | Except.ok st1 => runLoop env rest st1

/-- The state at the top of a run (after the line-87 log). -/
def initLogged : RunState :=
  { initState with logs := [⟨LogLevel.info, "Iniciando SCAN GLOBAL"⟩] }

/-- `Analyzer.run_daily_analysis` (lines 85-176).  `all_fixtures` is
`_get_api_data(...) or []`, i.e. `env.fixturesToday.getD []`. -/
def run_daily_analysis (env : Env) : Except Unit RunState :=
  if env.fixturesToday.getD [] = [] then
    Except.ok { initLogged with
      logs := initLogged.logs
        ++ [⟨LogLevel.warning, "Nenhum jogo encontrado na API para hoje (Global)."⟩] }
  else
    match runLoop env (env.fixturesToday.getD [])
        { initLogged with
          logs := initLogged.logs ++ [⟨LogLevel.info, "Total de jogos no mundo hoje"⟩] } with
    | Except.error e => Except.error e
    | Except.ok st =>
      Except.ok { st with logs := st.logs ++ [⟨LogLevel.info, "Analise concluida."⟩] }

/-- The fixed acknowledgement dictionary of the `/run` endpoint
(main.py line 63). -/
structure Ack where
  status : String
  message : String
deriving DecidableEq, Repr

def ackPayload : Ack :=
  { status := "ok"
    message := "Analise diaria executada manualmente. Verifique o Telegram." }

/-- The `/run` endpoint handler `run_analysis` (main.py lines 60-63): it
calls `run_daily_analysis` with no exception handling of its own and then
returns the fixed payload; an exception escaping the pipeline propagates. -/
def run_analysis (env : Env) : Except Unit Ack :=
  match run_daily_analysis env with
  | Except.error e => Except.error e
  | Except.ok _ => Except.ok ackPayload

/-- The status filter of line 106: the fixture has a status and it is one of
`NS` / `TBD`. -/
def upcoming (fx : Fixture) : Bool :=
  decide (fx.fixture.status_short = some "NS")
    || decide (fx.fixture.status_short = some "TBD")

/-- The not-yet-started fixtures of a stream whose league is outside the
priority set. -/
def nonVipUpcoming (env : Env) (fs : List Fixture) : List Fixture :=
  fs.filter fun f => upcoming f && !is_vip_for env f

/-- The not-yet-started fixtures of a stream whose league is in the
priority set. -/
def vipUpcoming (env : Env) (fs : List Fixture) : List Fixture :=
  fs.filter fun f => upcoming f && is_vip_for env f

/-- An environment where the global fixtures query failed (so the run sees
no fixtures) and no credential is set. -/
def envEmpty : Env :=
  { fixturesToday := none
    lastFixture := fun _ => none
    teamStatistics := fun _ _ _ => none
    vip_leagues := VIP_LEAGUES
    telegram_token := none
    telegram_chat_id := none }

/-- The run state `run_daily_analysis envEmpty` ends in. -/
def stEmptyRun : RunState :=
  { initState with
    logs := [⟨LogLevel.info, "Iniciando SCAN GLOBAL"⟩,
             ⟨LogLevel.warning, "Nenhum jogo encontrado na API para hoje (Global)."⟩] }

/-- A finished 0-0 last match for team 5. -/
def lmZZ : LastMatch :=
  { goals := ⟨some 0, some 0⟩
    teams := ⟨⟨5, "H"⟩, ⟨6, "X"⟩⟩
    fixture_date := "2024-01-01" }

/-- An environment whose last-match oracle always reports `lmZZ`. -/
def envZZ : Env :=
  { envEmpty with lastFixture := fun _ => some lmZZ }

/-- A non-priority fixture (league 2) carrying no league-season field. -/
def fxNoSeason : Fixture :=
  { fixture := ⟨some "NS", 0, "2024-01-01"⟩
    league := ⟨2, "Lower League", none⟩
    teams := ⟨⟨5, "H"⟩, ⟨6, "A"⟩⟩ }

/-- The state `processFixture envEmpty fxNoSeason initState` ends in: the
fixture passes the gate (consuming one budget unit) and is then skipped for
lack of a season. -/
def stW7 : RunState :=
  { initState with examined := [fxNoSeason], global_checks_counter := 1 }

/-- A priority-league fixture (league 39) with a season. -/
def fxCrash : Fixture :=
  { fixture := ⟨some "NS", 0, "2024-01-01"⟩
    league := ⟨39, "Premier League", some 2024⟩
    teams := ⟨⟨5, "H"⟩, ⟨6, "A"⟩⟩ }

/-- An environment in which the manual trigger crashes: team 5's last match
is 0-0 in a priority league, but the statistics call fails (absent), so the
deriver yields the `"N/A"` sentinel and the alert f-string raises. -/
def envCrash : Env :=
  { fixturesToday := some [fxCrash]
    lastFixture := fun _ => some lmZZ
    teamStatistics := fun _ _ _ => none
    vip_leagues := VIP_LEAGUES
    telegram_token := some "t"
    telegram_chat_id := some "c" }

/-- A concrete alert message used to instantiate the notifier theorems. -/
def msgW : AlertMsg :=
  { league_name := "L", home_name := "H", away_name := "A", kickoff_ts := 0
    team_name := "H", side := "Casa", last_op := "X", last_date := "2024-01-01"
    match_season := 2024, draw_rate := 0, defensive_trend := 0 }

/-- The failure conditions the spec names for one gateway call: transport
failure, a non-success HTTP status, an undecodable body, or a body the
source marks with (truthy) errors. -/
def gatewayCallFailed {α : Type} : HttpOutcome α → Prop
  | HttpOutcome.transportFail => True
  | HttpOutcome.reply status body =>
    (400 ≤ status ∧ status < 600) ∨ body = none ∨ ∃ d, body = some d ∧ d.errors ≠ []

/-- Claim C1: the scoreless (0-0) test succeeds exactly when both the home
and the away goal count are present and equal to the integer 0; a record
with one or both goal fields missing is classified as not scoreless. -/
theorem zero_zero_test_spec (lm : LastMatch) :
    (is_zero_zero lm = true ↔ lm.goals.home = some 0 ∧ lm.goals.away = some 0)
    ∧ (lm.goals.home = none ∨ lm.goals.away = none → is_zero_zero lm = false) := by
  constructor
  · simp [is_zero_zero]
  · intro h
    rcases h with h | h <;> simp [is_zero_zero, h]

theorem zero_zero_test_spec_witness :
    is_zero_zero ⟨⟨none, some 0⟩, ⟨⟨1, "A"⟩, ⟨2, "B"⟩⟩, "2024-01-01"⟩ = false :=
  (zero_zero_test_spec ⟨⟨none, some 0⟩, ⟨⟨1, "A"⟩, ⟨2, "B"⟩⟩, "2024-01-01"⟩).2
    (Or.inl rfl)

/-- Claim C2: for an aggregate with `played = P > 0`, the deriver returns
`draw_rate = 100*D/P` and `trend = 100*((C+F)/2)/P` (exactly, in `Rat`);
with `P = 0` the guard returns the sentinel pair before any division. -/
theorem calculate_real_stats_formula (ts : TeamStats) :
    (0 < ts.played →
      calculate_real_stats (some ts)
        = (100 * (ts.draws : Rat) / (ts.played : Rat),
           TrendValue.num
             (100 * (((ts.clean_sheet : Rat) + (ts.failed_to_score : Rat)) / 2)
               / (ts.played : Rat))))
    ∧ (ts.played = 0 → calculate_real_stats (some ts) = (0, TrendValue.sentinel "0/0")) := by
  constructor
  · intro hp
    have h0 : ¬ ts.played = 0 := by omega
    simp only [calculate_real_stats, if_neg h0, Prod.mk.injEq, TrendValue.num.injEq]
    constructor
    · ring
    · ring
  · intro hp
    simp [calculate_real_stats, hp]

theorem calculate_real_stats_formula_witness :
    0 < (20 : Nat)
    ∧ calculate_real_stats (some ⟨20, 5, 6, 4⟩)
        = (100 * ((5 : Nat) : Rat) / ((20 : Nat) : Rat),
           TrendValue.num
             (100 * ((((6 : Nat) : Rat) + ((4 : Nat) : Rat)) / 2) / ((20 : Nat) : Rat))) :=
  ⟨by decide, (calculate_real_stats_formula ⟨20, 5, 6, 4⟩).1 (by decide)⟩

/-- Claim C3: the deriver returns exactly `(0.0, "N/A")` on an absent
aggregate and exactly `(0.0, "0/0")` on a present aggregate with
`played = 0`. -/
theorem calculate_real_stats_degenerate :
    calculate_real_stats none = (0, TrendValue.sentinel "N/A")
    ∧ ∀ ts : TeamStats, ts.played = 0 →
        calculate_real_stats (some ts) = (0, TrendValue.sentinel "0/0") := by
  constructor
  · rfl
  · intro ts hp
    simp [calculate_real_stats, hp]

theorem calculate_real_stats_degenerate_witness :
    calculate_real_stats (some ⟨0, 3, 2, 1⟩) = (0, TrendValue.sentinel "0/0") :=
  calculate_real_stats_degenerate.2 ⟨0, 3, 2, 1⟩ rfl

/-- Claim C6: the gateway returns absent exactly on transport failure,
non-success status, undecodable body, or a source-marked error; otherwise it
returns the decoded response list (defaulted to empty when the field is
absent).  Totality of `get_api_data` is the model of "never raises". -/
theorem get_api_data_spec {α : Type} (o : HttpOutcome α) :
    ((get_api_data o).1 = none ↔ gatewayCallFailed o)
    ∧ (∀ (status : Nat) (d : JsonBody α), o = HttpOutcome.reply status (some d) →
        ¬(400 ≤ status ∧ status < 600) → d.errors = [] →
        (get_api_data o).1 = some (d.response.getD [])) := by
  constructor
  · cases o with
    | transportFail => simp [get_api_data, gatewayCallFailed]
    | reply status body =>
      by_cases hs : 400 ≤ status ∧ status < 600
      · simp [get_api_data, gatewayCallFailed, hs]
      · cases body with
        | none => simp [get_api_data, gatewayCallFailed, hs]
        | some d =>
          by_cases he : d.errors = []
          · simp [get_api_data, gatewayCallFailed, hs, he]
          · simp [get_api_data, gatewayCallFailed, hs, he]
  · intro status d ho hs he
    subst ho
    simp [get_api_data, hs, he]

theorem get_api_data_spec_witness :
    (get_api_data (HttpOutcome.transportFail : HttpOutcome Nat)).1 = none
    ∧ (get_api_data (HttpOutcome.reply 200 (some ⟨[], some [7]⟩) : HttpOutcome Nat)).1
        = some ((some [7] : Option (List Nat)).getD []) :=
  ⟨(get_api_data_spec (HttpOutcome.transportFail : HttpOutcome Nat)).1.mpr trivial,
   (get_api_data_spec (HttpOutcome.reply 200 (some ⟨[], some [7]⟩) : HttpOutcome Nat)).2
     200 ⟨[], some [7]⟩ rfl (by decide) rfl⟩

/-- Membership through the `int` evaluation of the retained tokens: when no
call raises, the values are exactly those of the tokens. -/
theorem pyIntList_mem (xs : List String) :
    ∀ (ns : List Nat), pyIntList xs = some ns →
      ∀ l : Nat, l ∈ ns ↔ ∃ x ∈ xs, pyIntOpt x = some l := by
  induction xs with
  | nil =>
    intro ns h l
    unfold pyIntList at h
    simp only [Option.some.injEq] at h
    subst h
    simp
  | cons x xs ih =>
    intro ns h l
    unfold pyIntList at h
    cases hx : pyIntOpt x with
    | none =>
      simp only [hx] at h
      exact Option.noConfusion h
    | some n =>
      simp only [hx] at h
      cases hxs : pyIntList xs with
      | none =>
        simp only [hxs] at h
        exact Option.noConfusion h
      | some ms =>
        simp only [hxs, Option.some.injEq] at h
        subst h
        constructor
        · intro hl
          rcases List.mem_cons.mp hl with hl | hl
          · exact ⟨x, List.mem_cons_self x xs, by rw [hx, hl]⟩
          · obtain ⟨y, hy, hyl⟩ := (ih ms hxs l).mp hl
            exact ⟨y, List.mem_cons_of_mem x hy, hyl⟩
        · rintro ⟨y, hy, hyl⟩
          rcases List.mem_cons.mp hy with hy | hy
          · subst hy
            rw [hx] at hyl
            simp only [Option.some.injEq] at hyl
            exact List.mem_cons.mpr (Or.inl hyl.symm)
          · exact List.mem_cons.mpr (Or.inr ((ih ms hxs l).mpr ⟨y, hy, hyl⟩))

/-- Counterexample to claim C10 as stated: the override `"²"` is non-empty
and contains no token `int()` accepts, yet the constructed priority set is
the built-in default list (the superscript passes `isdigit`, `int()` raises
`ValueError`, and the `except` at analyzer.py:33-34 falls back) — not the
empty set the claim requires, and the default list is used for a non-empty
override. -/
theorem vip_leagues_of_counterexample :
    ("²" : String) ≠ ""
    ∧ vip_leagues_of "²" = VIP_LEAGUES
    ∧ vip_leagues_of "²" ≠ [] :=
  ⟨by decide, by decide, by decide⟩

/-- Claim C10 (amended): constructing the priority set never raises to the
caller; the built-in default list is used when the override is unset/empty
or when some retained `isdigit` token makes `int()` raise (a digit that is
not decimal, e.g. `"²"`); otherwise membership holds exactly for the
`int()` values of the digit tokens of the comma-split — insensitive to
token order and duplicates, non-digit and negative tokens dropped — and a
non-empty override with no digit token yields the empty set. -/
theorem vip_leagues_of_spec (s : String) :
    (s = "" → vip_leagues_of s = VIP_LEAGUES)
    ∧ (s ≠ "" → parseLeagueIds s = none → vip_leagues_of s = VIP_LEAGUES)
    ∧ (s ≠ "" → ∀ parsed, parseLeagueIds s = some parsed →
        ∀ l : Nat, l ∈ vip_leagues_of s ↔
          ∃ tok ∈ pySplit s, pyIsDigit (pyStrip tok) = true
            ∧ pyIntOpt (pyStrip tok) = some l)
    ∧ (s ≠ "" → (∀ tok ∈ pySplit s, pyIsDigit (pyStrip tok) = false) →
        vip_leagues_of s = []) := by
  refine ⟨?_, ?_, ?_, ?_⟩
  · intro hs
    simp [vip_leagues_of, hs]
  · intro hs hp
    unfold vip_leagues_of
    rw [if_pos hs]
    simp only [hp]
  · intro hs parsed hp l
    unfold vip_leagues_of
    rw [if_pos hs]
    simp only [hp]
    rw [List.mem_insertionSort, List.mem_dedup]
    have hp2 : pyIntList (((pySplit s).filter fun x => pyIsDigit (pyStrip x)).map
        fun x => pyStrip x) = some parsed := hp
    rw [pyIntList_mem _ parsed hp2 l]
    constructor
    · rintro ⟨x, hx, hxl⟩
      rw [List.mem_map] at hx
      obtain ⟨tok, htok, hmap⟩ := hx
      rw [List.mem_filter] at htok
      subst hmap
      exact ⟨tok, htok.1, htok.2, hxl⟩
    · rintro ⟨tok, htok, hdig, hval⟩
      exact ⟨pyStrip tok,
        List.mem_map.mpr ⟨tok, List.mem_filter.mpr ⟨htok, hdig⟩, rfl⟩, hval⟩
  · intro hs hno
    have hfil : (pySplit s).filter (fun x => pyIsDigit (pyStrip x)) = [] := by
      rw [List.filter_eq_nil_iff]
      intro a ha
      simp [hno a ha]
    unfold vip_leagues_of parseLeagueIds
    rw [if_pos hs, hfil]
    rfl

theorem vip_leagues_of_spec_witness :
    vip_leagues_of "" = VIP_LEAGUES
    ∧ vip_leagues_of "7,²" = VIP_LEAGUES
    ∧ vip_leagues_of "x,y" = []
    ∧ (3 ∈ vip_leagues_of "٣,7,٣" ↔
        ∃ tok ∈ pySplit "٣,7,٣", pyIsDigit (pyStrip tok) = true
          ∧ pyIntOpt (pyStrip tok) = some 3) :=
  ⟨(vip_leagues_of_spec "").1 rfl,
   (vip_leagues_of_spec "7,²").2.1 (by decide) (by decide),
   (vip_leagues_of_spec "x,y").2.2.2 (by decide) (by decide),
   (vip_leagues_of_spec "٣,7,٣").2.2.1 (by decide) [3, 7, 3] (by decide) 3⟩

/-- Processing one team side never touches the `examined` ghost list or the
quota counter. -/
theorem processSide_preserves (env : Env) (is_vip : Bool) (league_id : Nat)
    (league_name : String) (match_season : Nat) (fx : Fixture) (team : TeamRef)
    (side : String) (st st' : RunState)
    (h : processSide env is_vip league_id league_name match_season fx team side st
      = Except.ok st') :
    st'.examined = st.examined
      ∧ st'.global_checks_counter = st.global_checks_counter := by
  unfold processSide at h
  repeat' split at h
  all_goals
    first
      | exact Except.noConfusion h
      | (simp only [Except.ok.injEq] at h; subst h; exact ⟨rfl, rfl⟩)

/-- With the bot token unset, processing one team side makes no Telegram
HTTP call. -/
theorem processSide_sent_of_token_none (env : Env) (is_vip : Bool) (league_id : Nat)
    (league_name : String) (match_season : Nat) (fx : Fixture) (team : TeamRef)
    (side : String) (st st' : RunState) (hN : env.telegram_token = none)
    (h : processSide env is_vip league_id league_name match_season fx team side st
      = Except.ok st') :
    st'.sent = st.sent := by
  unfold processSide at h
  repeat' split at h
  all_goals
    first
      | exact Except.noConfusion h
      | (simp only [Except.ok.injEq] at h; subst h;
         simp [send_telegram_message, pyTruthy, hN])

/-- Every statistics lookup recorded while processing one team side uses the
season passed in. -/
theorem processSide_stats (env : Env) (is_vip : Bool) (league_id : Nat)
    (league_name : String) (match_season : Nat) (fx : Fixture) (team : TeamRef)
    (side : String) (st st' : RunState)
    (h : processSide env is_vip league_id league_name match_season fx team side st
      = Except.ok st') :
    ∀ e ∈ st'.statsLookups, e ∈ st.statsLookups ∨ e.2.2 = match_season := by
  unfold processSide at h
  repeat' split at h
  all_goals
    first
      | exact Except.noConfusion h
      | (simp only [Except.ok.injEq] at h; subst h;
         intro e he;
         first
           | exact Or.inl he
           | (have he2 : e ∈ st.statsLookups ++ [(team.id, league_id, match_season)] := he
              rcases List.mem_append.mp he2 with h1 | h1
              · exact Or.inl h1
              · cases List.mem_singleton.mp h1
                exact Or.inr rfl))

/-- Likewise, the lookups recorded grow by exactly the team looked up. -/
theorem processSide_lookups (env : Env) (is_vip : Bool) (league_id : Nat)
    (league_name : String) (match_season : Nat) (fx : Fixture) (team : TeamRef)
    (side : String) (st st' : RunState)
    (h : processSide env is_vip league_id league_name match_season fx team side st
      = Except.ok st') :
    st'.lookups = st.lookups ++ [team.id] := by
  unfold processSide at h
  repeat' split at h
  all_goals
    first
      | exact Except.noConfusion h
      | (simp only [Except.ok.injEq] at h; subst h; rfl)

theorem progressLogged_fields (st : RunState) :
    (progressLogged st).examined = st.examined
    ∧ (progressLogged st).global_checks_counter = st.global_checks_counter
    ∧ (progressLogged st).sent = st.sent
    ∧ (progressLogged st).lookups = st.lookups
    ∧ (progressLogged st).statsLookups = st.statsLookups := by
  unfold progressLogged
  split <;> exact ⟨rfl, rfl, rfl, rfl, rfl⟩

/-- Processing the gated part of one fixture never touches the `examined`
ghost list or the quota counter. -/
theorem processGated_preserves (env : Env) (fx : Fixture) (st st' : RunState)
    (h : processGated env fx st = Except.ok st') :
    st'.examined = st.examined
      ∧ st'.global_checks_counter = st.global_checks_counter := by
  unfold processGated at h
  split at h
  · simp only [Except.ok.injEq] at h; subst h; exact ⟨rfl, rfl⟩
  · split at h
    · exact Except.noConfusion h
    · rename_i s hsome st3 hh
      have p1 := processSide_preserves _ _ _ _ _ _ _ _ _ _ hh
      have p2 := processSide_preserves _ _ _ _ _ _ _ _ _ _ h
      have pl := progressLogged_fields st
      constructor
      · rw [p2.1, p1.1]; exact pl.1
      · rw [p2.2, p1.2]; exact pl.2.1

/-- With the bot token unset, the gated part of one fixture makes no
Telegram HTTP call. -/
theorem processGated_sent_of_token_none (env : Env) (fx : Fixture) (st st' : RunState)
    (hN : env.telegram_token = none) (h : processGated env fx st = Except.ok st') :
    st'.sent = st.sent := by
  unfold processGated at h
  split at h
  · simp only [Except.ok.injEq] at h; subst h; rfl
  · split at h
    · exact Except.noConfusion h
    · rename_i s hsome st3 hh
      have p1 := processSide_sent_of_token_none _ _ _ _ _ _ _ _ _ _ hN hh
      have p2 := processSide_sent_of_token_none _ _ _ _ _ _ _ _ _ _ hN h
      rw [p2, p1]
      exact (progressLogged_fields st).2.2.1

/-- A fixture without a league-season field is dropped by the bare `except`
at lines 125-126: the gated part leaves the state untouched. -/
theorem processGated_season_none (env : Env) (fx : Fixture) (st : RunState)
    (hs : fx.league.season = none) :
    processGated env fx st = Except.ok st := by
  unfold processGated
  simp only [hs]

/-- Every statistics lookup recorded in the gated part of a fixture uses the
fixture's own league-season value. -/
theorem processGated_stats (env : Env) (fx : Fixture) (st st' : RunState) (y : Nat)
    (hs : fx.league.season = some y)
    (h : processGated env fx st = Except.ok st') :
    ∀ e ∈ st'.statsLookups, e ∈ st.statsLookups ∨ e.2.2 = y := by
  unfold processGated at h
  simp only [hs] at h
  split at h
  · exact Except.noConfusion h
  · rename_i st3 hh
    intro e he
    rcases processSide_stats _ _ _ _ _ _ _ _ _ _ h e he with h1 | h1
    · rcases processSide_stats _ _ _ _ _ _ _ _ _ _ hh e h1 with h2 | h2
      · left
        have hcc : (countChecked (progressLogged st)).statsLookups = st.statsLookups :=
          (progressLogged_fields st).2.2.2.2
        rwa [hcc] at h2
      · right; exact h2
    · right; exact h1

/-- How one loop iteration treats the `examined` ghost list and the quota
counter, by case on the status filter, VIP detection, and the gate. -/
theorem processFixture_gate (env : Env) (fx : Fixture) (st st' : RunState)
    (h : processFixture env fx st = Except.ok st') :
    (upcoming fx = false →
      st'.examined = st.examined
        ∧ st'.global_checks_counter = st.global_checks_counter)
    ∧ (upcoming fx = true → is_vip_for env fx = true →
        st'.examined = st.examined ++ [fx]
          ∧ st'.global_checks_counter = st.global_checks_counter)
    ∧ (upcoming fx = true → is_vip_for env fx = false →
        MAX_GLOBAL_CHECKS ≤ st.global_checks_counter → st' = st)
    ∧ (upcoming fx = true → is_vip_for env fx = false →
        st.global_checks_counter < MAX_GLOBAL_CHECKS →
        st'.examined = st.examined ++ [fx]
          ∧ st'.global_checks_counter = st.global_checks_counter + 1) := by
  unfold processFixture at h
  cases hstat : fx.fixture.status_short with
  | none =>
    simp only [hstat] at h
    exact Except.noConfusion h
  | some status =>
    simp only [hstat] at h
    by_cases hup : status = "NS" ∨ status = "TBD"
    · rw [if_pos hup] at h
      have hupb : upcoming fx = true := by
        unfold upcoming
        rw [hstat]
        rcases hup with h1 | h1 <;> subst h1 <;> simp
      by_cases hvip : is_vip_for env fx = true
      · rw [if_neg (by simp [hvip])] at h
        rw [if_pos hvip] at h
        have pg := processGated_preserves _ _ _ _ h
        refine ⟨?_, ?_, ?_, ?_⟩
        · intro hfalse; rw [hupb] at hfalse; exact Bool.noConfusion hfalse
        · intro _ _
          exact ⟨by rw [pg.1], by rw [pg.2]⟩
        · intro _ hker; rw [hvip] at hker; exact Bool.noConfusion hker
        · intro _ hker; rw [hvip] at hker; exact Bool.noConfusion hker
      · have hvipf : is_vip_for env fx = false := by
          cases hbv : is_vip_for env fx
          · rfl
          · exact absurd hbv hvip
        by_cases hcap : MAX_GLOBAL_CHECKS ≤ st.global_checks_counter
        · rw [if_pos ⟨hvipf, hcap⟩] at h
          simp only [Except.ok.injEq] at h
          subst h
          refine ⟨?_, ?_, ?_, ?_⟩
          · intro hfalse; rw [hupb] at hfalse; exact Bool.noConfusion hfalse
          · intro _ hker; rw [hvipf] at hker; exact Bool.noConfusion hker
          · intro _ _ _; rfl
          · intro _ _ hlt; omega
        · rw [if_neg (by simp [hcap])] at h
          rw [if_neg (by simp [hvipf])] at h
          have pg := processGated_preserves _ _ _ _ h
          refine ⟨?_, ?_, ?_, ?_⟩
          · intro hfalse; rw [hupb] at hfalse; exact Bool.noConfusion hfalse
          · intro _ hker; rw [hvipf] at hker; exact Bool.noConfusion hker
          · intro _ _ hle; omega
          · intro _ _ _
            exact ⟨by rw [pg.1], by rw [pg.2]⟩
    · rw [if_neg hup] at h
      simp only [Except.ok.injEq] at h
      subst h
      have hupb : upcoming fx = false := by
        unfold upcoming
        rw [hstat]
        rcases not_or.mp hup with ⟨h1, h2⟩
        simp [h1, h2]
      refine ⟨fun _ => ⟨rfl, rfl⟩, ?_, fun _ _ _ => rfl, ?_⟩
      · intro htrue _; rw [hupb] at htrue; exact Bool.noConfusion htrue
      · intro htrue _ _; rw [hupb] at htrue; exact Bool.noConfusion htrue

/-- With the bot token unset, one full loop iteration makes no Telegram
HTTP call. -/
theorem processFixture_sent_of_token_none (env : Env) (fx : Fixture) (st st' : RunState)
    (hN : env.telegram_token = none)
    (h : processFixture env fx st = Except.ok st') :
    st'.sent = st.sent := by
  unfold processFixture at h
  repeat' split at h
  all_goals
    first
      | exact Except.noConfusion h
      | (simp only [Except.ok.injEq] at h; subst h; rfl)
      | (have hpg := processGated_sent_of_token_none env fx _ st' hN h; exact hpg)

/-- With the bot token unset, the whole loop makes no Telegram HTTP call. -/
theorem runLoop_sent_of_token_none (env : Env) (hN : env.telegram_token = none) :
    ∀ (fs : List Fixture) (st st' : RunState),
      runLoop env fs st = Except.ok st' → st'.sent = st.sent := by
  intro fs
  induction fs with
  | nil =>
    intro st st' h
    unfold runLoop at h
    simp only [Except.ok.injEq] at h
    subst h
    rfl
  | cons fx rest ih =>
    intro st st' h
    unfold runLoop at h
    split at h
    · exact Except.noConfusion h
    · rename_i st1 hh
      exact (ih st1 st' h).trans (processFixture_sent_of_token_none _ _ _ _ hN hh)

/-- The quota-gate invariant of the loop: starting with `c ≤ 50` budget
used, the non-priority fixtures that pass the gate are exactly the first
`50 - c` not-yet-started non-priority fixtures of the stream, while every
not-yet-started priority fixture passes the gate. -/
theorem runLoop_examined (env : Env) (fs : List Fixture) :
    ∀ (st st' : RunState), runLoop env fs st = Except.ok st' →
      st.global_checks_counter ≤ MAX_GLOBAL_CHECKS →
      st'.examined.filter (fun f => !is_vip_for env f)
          = st.examined.filter (fun f => !is_vip_for env f)
            ++ (nonVipUpcoming env fs).take
                (MAX_GLOBAL_CHECKS - st.global_checks_counter)
        ∧ st'.examined.filter (fun f => is_vip_for env f)
          = st.examined.filter (fun f => is_vip_for env f) ++ vipUpcoming env fs := by
  induction fs with
  | nil =>
    intro st st' h hc
    unfold runLoop at h
    simp only [Except.ok.injEq] at h
    subst h
    simp [nonVipUpcoming, vipUpcoming]
  | cons fx rest ih =>
    intro st st' h hc
    unfold runLoop at h
    split at h
    · exact Except.noConfusion h
    · rename_i st1 hh
      have pf := processFixture_gate env fx st st1 hh
      by_cases hup : upcoming fx = true
      · by_cases hvip : is_vip_for env fx = true
        · obtain ⟨he, hcnt⟩ := pf.2.1 hup hvip
          obtain ⟨ihn, ihv⟩ := ih st1 st' h (by rw [hcnt]; exact hc)
          have hnv : nonVipUpcoming env (fx :: rest) = nonVipUpcoming env rest := by
            unfold nonVipUpcoming
            rw [List.filter_cons_of_neg]
            simp [hup, hvip]
          have hv : vipUpcoming env (fx :: rest) = fx :: vipUpcoming env rest := by
            unfold vipUpcoming
            rw [List.filter_cons_of_pos]
            simp [hup, hvip]
          constructor
          · rw [ihn, he, hnv, hcnt]
            simp [List.filter_append, hvip]
          · rw [ihv, he, hv]
            simp [List.filter_append, hvip]
        · have hvipf : is_vip_for env fx = false := by
            cases hbv : is_vip_for env fx
            · rfl
            · exact absurd hbv hvip
          by_cases hcap : MAX_GLOBAL_CHECKS ≤ st.global_checks_counter
          · have hst : st1 = st := pf.2.2.1 hup hvipf hcap
            obtain ⟨ihn, ihv⟩ := ih st1 st' h (by rw [hst]; exact hc)
            rw [hst] at ihn ihv
            have hc50 : st.global_checks_counter = MAX_GLOBAL_CHECKS :=
              le_antisymm hc hcap
            have hv : vipUpcoming env (fx :: rest) = vipUpcoming env rest := by
              unfold vipUpcoming
              rw [List.filter_cons_of_neg]
              simp [hup, hvipf]
            constructor
            · rw [ihn, hc50]
              simp
            · rw [ihv, hv]
          · have hlt : st.global_checks_counter < MAX_GLOBAL_CHECKS :=
              Nat.lt_of_not_le hcap
            obtain ⟨he, hcnt⟩ := pf.2.2.2 hup hvipf hlt
            obtain ⟨ihn, ihv⟩ := ih st1 st' h (by rw [hcnt]; omega)
            have hnv : nonVipUpcoming env (fx :: rest) = fx :: nonVipUpcoming env rest := by
              unfold nonVipUpcoming
              rw [List.filter_cons_of_pos]
              simp [hup, hvipf]
            have hv : vipUpcoming env (fx :: rest) = vipUpcoming env rest := by
              unfold vipUpcoming
              rw [List.filter_cons_of_neg]
              simp [hup, hvipf]
            have htake : (nonVipUpcoming env (fx :: rest)).take
                (MAX_GLOBAL_CHECKS - st.global_checks_counter)
                = fx :: (nonVipUpcoming env rest).take
                    (MAX_GLOBAL_CHECKS - st1.global_checks_counter) := by
              rw [hnv, hcnt]
              have hsub : MAX_GLOBAL_CHECKS - st.global_checks_counter
                  = (MAX_GLOBAL_CHECKS - (st.global_checks_counter + 1)) + 1 := by
                omega
              rw [hsub, List.take_succ_cons]
            constructor
            · rw [ihn, he, htake]
              simp [List.filter_append, hvipf]
            · rw [ihv, he, hv]
              simp [List.filter_append, hvipf]
      · have hupf : upcoming fx = false := by
          cases hbu : upcoming fx
          · rfl
          · exact absurd hbu hup
        obtain ⟨he, hcnt⟩ := pf.1 hupf
        obtain ⟨ihn, ihv⟩ := ih st1 st' h (by rw [hcnt]; exact hc)
        have hnv : nonVipUpcoming env (fx :: rest) = nonVipUpcoming env rest := by
          unfold nonVipUpcoming
          rw [List.filter_cons_of_neg]
          simp [hupf]
        have hv : vipUpcoming env (fx :: rest) = vipUpcoming env rest := by
          unfold vipUpcoming
          rw [List.filter_cons_of_neg]
          simp [hupf]
        constructor
        · rw [ihn, he, hnv, hcnt]
        · rw [ihv, he, hv]

/-- Claim C4: a notification is sent only when the league is in the
configured priority set; a scoreless hit in a non-priority league sends
nothing and records exactly one warning-level log entry. -/
theorem c4_vip_gate (env : Env) (is_vip : Bool) (league_id : Nat)
    (league_name : String) (match_season : Nat) (fx : Fixture) (team : TeamRef)
    (side : String) (st : RunState)
    (hvip : is_vip = decide (league_id ∈ env.vip_leagues)) :
    (∀ st', processSide env is_vip league_id league_name match_season fx team side st
        = Except.ok st' → st'.sent ≠ st.sent → league_id ∈ env.vip_leagues)
    ∧ (league_id ∉ env.vip_leagues →
        ∀ lm, env.lastFixture team.id = some lm → is_zero_zero lm = true →
          processSide env is_vip league_id league_name match_season fx team side st
            = Except.ok { st with
                lookups := st.lookups ++ [team.id]
                logs := st.logs
                  ++ [⟨LogLevel.warning, "0x0 DETECTADO (Fora da Lista VIP)"⟩] }) := by
  constructor
  · intro st' h hne
    by_cases hmem : league_id ∈ env.vip_leagues
    · exact hmem
    · have hv : is_vip = false := by rw [hvip]; simp [hmem]
      subst hv
      exfalso
      apply hne
      unfold processSide at h
      split at h
      · simp only [Except.ok.injEq] at h; subst h; rfl
      · split at h
        · rw [if_neg (by simp)] at h
          simp only [Except.ok.injEq] at h; subst h; rfl
        · simp only [Except.ok.injEq] at h; subst h; rfl
  · intro hmem lm hlm hzz
    have hv : is_vip = false := by rw [hvip]; simp [hmem]
    subst hv
    unfold processSide
    simp only [hlm]
    rw [if_pos hzz, if_neg (by simp)]

theorem c4_vip_gate_witness :
    processSide envZZ false 2 "Lower League" 2024 fxNoSeason ⟨5, "H"⟩ "Casa" initState
      = Except.ok { initState with
          lookups := initState.lookups ++ [5]
          logs := initState.logs
            ++ [⟨LogLevel.warning, "0x0 DETECTADO (Fora da Lista VIP)"⟩] } :=
  (c4_vip_gate envZZ false 2 "Lower League" 2024 fxNoSeason ⟨5, "H"⟩ "Casa" initState
    (by decide)).2 (by decide) lmZZ rfl rfl

/-- Claim C5: in every completed run, the non-priority fixtures passing the
quota gate are exactly the first `MAX_GLOBAL_CHECKS` (50) not-yet-started
non-priority fixtures of the stream (so at most 50, with the rest silently
skipped), while every not-yet-started priority fixture passes the gate
regardless of the counter. -/
theorem c5_cap (env : Env) (st' : RunState)
    (h : run_daily_analysis env = Except.ok st') :
    st'.examined.filter (fun f => !is_vip_for env f)
        = (nonVipUpcoming env (env.fixturesToday.getD [])).take MAX_GLOBAL_CHECKS
      ∧ st'.examined.filter (fun f => is_vip_for env f)
        = vipUpcoming env (env.fixturesToday.getD []) := by
  unfold run_daily_analysis at h
  split at h
  · rename_i hfx
    simp only [Except.ok.injEq] at h
    subst h
    rw [hfx]
    simp [nonVipUpcoming, vipUpcoming, initLogged, initState]
  · split at h
    · exact Except.noConfusion h
    · rename_i st2 hh
      simp only [Except.ok.injEq] at h
      subst h
      obtain ⟨hn, hv⟩ := runLoop_examined env (env.fixturesToday.getD []) _ st2 hh
        (by simp [initLogged, initState, MAX_GLOBAL_CHECKS])
      constructor
      · refine hn.trans ?_
        simp [initLogged, initState]
      · refine hv.trans ?_
        simp [initLogged, initState]

theorem c5_cap_witness :
    stEmptyRun.examined.filter (fun f => !is_vip_for envEmpty f)
        = (nonVipUpcoming envEmpty (envEmpty.fixturesToday.getD [])).take MAX_GLOBAL_CHECKS
      ∧ stEmptyRun.examined.filter (fun f => is_vip_for envEmpty f)
        = vipUpcoming envEmpty (envEmpty.fixturesToday.getD []) :=
  c5_cap envEmpty stEmptyRun rfl

/-- Claim C7: the season used for statistics is the fixture's own
league-season field (every recorded statistics lookup carries it), and a
fixture with that field absent is skipped: no team lookup, no alert, no log
entry comes from it. -/
theorem c7_season_guard (env : Env) (fx : Fixture) (st st' : RunState)
    (h : processFixture env fx st = Except.ok st') :
    (fx.league.season = none →
      st'.lookups = st.lookups ∧ st'.sent = st.sent ∧ st'.logs = st.logs)
    ∧ (∀ y, fx.league.season = some y →
        ∀ e ∈ st'.statsLookups, e ∈ st.statsLookups ∨ e.2.2 = y) := by
  unfold processFixture at h
  repeat' split at h
  all_goals
    first
      | exact Except.noConfusion h
      | (simp only [Except.ok.injEq] at h; subst h;
         exact ⟨fun _ => ⟨rfl, rfl, rfl⟩, fun y hy e he => Or.inl he⟩)
      | (constructor
         · intro hs
           have hskip := (processGated_season_none env fx _ hs).symm.trans h
           simp only [Except.ok.injEq] at hskip
           subst hskip
           exact ⟨rfl, rfl, rfl⟩
         · intro y hy e he
           have hst := processGated_stats env fx _ st' y hy h e he
           rcases hst with h1 | h1
           · exact Or.inl h1
           · exact Or.inr h1)

theorem c7_season_guard_witness :
    stW7.lookups = initState.lookups ∧ stW7.sent = initState.sent
      ∧ stW7.logs = initState.logs :=
  (c7_season_guard envEmpty fxNoSeason initState stW7 rfl).1 rfl

/-- Claim C8: with the notification credential or destination unset, the
send step is a warning-logged no-op (no HTTP call, no exception), and a
whole run with the token unset makes zero HTTP calls to the sink. -/
theorem c8_telegram_no_op :
    (∀ (chat_id : Option String) (message : AlertMsg),
        send_telegram_message none chat_id message
          = ([], [⟨LogLevel.warning, "Telegram nao configurado."⟩]))
    ∧ (∀ (token : Option String) (message : AlertMsg),
        send_telegram_message token none message
          = ([], [⟨LogLevel.warning, "Telegram nao configurado."⟩]))
    ∧ (∀ (env : Env) (st' : RunState), env.telegram_token = none →
        run_daily_analysis env = Except.ok st' → st'.sent = []) := by
  refine ⟨?_, ?_, ?_⟩
  · intro c m
    simp [send_telegram_message, pyTruthy]
  · intro t m
    unfold send_telegram_message
    rw [if_pos (Or.inr (by simp [pyTruthy]))]
  · intro env st' hN h
    unfold run_daily_analysis at h
    split at h
    · simp only [Except.ok.injEq] at h
      subst h
      rfl
    · split at h
      · exact Except.noConfusion h
      · rename_i st2 hh
        simp only [Except.ok.injEq] at h
        subst h
        have hs := runLoop_sent_of_token_none env hN _ _ _ hh
        exact hs

theorem c8_telegram_no_op_witness :
    send_telegram_message none (some "c") msgW
        = ([], [⟨LogLevel.warning, "Telegram nao configurado."⟩])
    ∧ stEmptyRun.sent = [] :=
  ⟨c8_telegram_no_op.1 (some "c") msgW,
   c8_telegram_no_op.2.2 envEmpty stEmptyRun rfl rfl⟩

/-- Counterexample to claim C9 as stated: in `envCrash` the pipeline body
raises (the statistics call fails, the deriver yields the `"N/A"` sentinel,
and the alert f-string's `:.1f` conversion raises on it), and the manual
trigger endpoint propagates the error instead of returning the fixed
acknowledgement. -/
theorem run_analysis_error_counterexample :
    run_analysis envCrash = Except.error ()
    ∧ run_analysis envCrash ≠ Except.ok ackPayload := by
  constructor
  · rfl
  · intro hcontra
    rw [show run_analysis envCrash = Except.error () from rfl] at hcontra
    exact Except.noConfusion hcontra

/-- Claim C9 (amended): the manual-trigger endpoint returns the fixed
acknowledgement whenever the pipeline completes without an uncaught
exception — failures handled inside the pipeline never surface — but an
uncaught pipeline exception propagates to the caller unchanged. -/
theorem run_analysis_ack_spec (env : Env) :
    (∀ st, run_daily_analysis env = Except.ok st →
        run_analysis env = Except.ok ackPayload)
    ∧ (∀ e, run_daily_analysis env = Except.error e →
        run_analysis env = Except.error e) := by
  constructor
  · intro st h
    unfold run_analysis
    rw [h]
  · intro e h
    unfold run_analysis
    rw [h]

theorem run_analysis_ack_spec_witness :
    run_analysis envEmpty = Except.ok ackPayload :=
  (run_analysis_ack_spec envEmpty).1 stEmptyRun rfl
